import Mathlib

/-!
Verification of the Authentication & Credential Lifecycle Engine of
`rota-manager` against its natural-language specification.

The Rust source is shallowly embedded: each Rust function relevant to the
claims is translated into an executable Lean definition.  `secrecy::Secret`
wrappers are semantically the identity (all the domain types compare and hash
the exposed inner string), so secret-wrapped strings are embedded as plain
`String`s.  Asynchronous store operations are embedded as pure functions in
explicit state-passing style; the `RwLock`-guarded shared stores appear as
explicit state arguments and results.  `eyre::Report` payloads of the
`UnexpectedError` variants are dropped (no claim inspects them).
-/

/-- Model of `domain/email.rs`: `Email(Secret<String>)`; `PartialEq`/`Hash`
compare the exposed inner string, so structural equality is faithful. -/
structure Email where
  raw : String
deriving DecidableEq, Repr

/-- Model of `domain/password.rs`: `Password(Secret<String>)`, comparing the
exposed string. -/
structure Password where
  raw : String
deriving DecidableEq, Repr

/-- Model of `domain/login_attempt_id.rs`: `LoginAttemptId(Secret<String>)`. -/
structure LoginAttemptId where
  raw : String
deriving DecidableEq, Repr

/-- Model of `domain/two_fa_code.rs`: `TwoFACode(Secret<String>)`. -/
structure TwoFACode where
  raw : String
deriving DecidableEq, Repr

/-- Model of `domain/user_password_hash.rs`: `UserPasswordHash(Secret<String>)`. -/
structure UserPasswordHash where
  raw : String
deriving DecidableEq, Repr

/-- Model of `domain/user_id.rs`: a UUID wrapper. -/
structure UserId where
  raw : String
deriving DecidableEq, Repr

/-- Model of `utils/auth.rs` `Claims { sub, exp }`. -/
structure Claims where
  sub : String
  exp : Nat
deriving DecidableEq, Repr

/-- Model of `domain/error.rs` `AuthAPIError` (the `Report` payload of
`UnexpectedError` and the message payload of `ValidationError` are dropped;
no claim inspects them). -/
inductive AuthAPIError where
  | incorrectCredentials
  | invalidToken
  | missingToken
  | unexpectedError
  | userAlreadyExists
  | userNotFound
  | validationError
deriving DecidableEq, Repr

/-- Model of `domain/data_stores.rs` `UserStoreError`. -/
inductive UserStoreError where
  | userAlreadyExists
  | userNotFound
  | invalidCredentials
  | unexpectedError
deriving DecidableEq, Repr

/-- Model of `domain/data_stores.rs` `BannedTokenStoreError`. -/
inductive BannedTokenStoreError where
  | bannedToken
  | unexpectedError
deriving DecidableEq, Repr

/-- Model of `domain/data_stores.rs` `TwoFACodeStoreError`. -/
inductive TwoFACodeStoreError where
  | loginAttemptIdNotFound
  | unexpectedError
deriving DecidableEq, Repr

/-! ### Password validation (`domain/password.rs`) -/


/-- Model of `validate_password` in `domain/password.rs`.  The Rust code
counts `chars().count()` — Unicode scalar values — which is exactly
`String.length` in Lean.  The error messages are built by `format!` with the
two bound values interpolated. -/
def validate_password (s : String) : Except String Unit :=
  let min_characters : Nat := 8
  let max_characters : Nat := 128
  let char_count := s.length
  if char_count < min_characters then
    .error ("Too short. Should be " ++ toString min_characters ++ " to "
      ++ toString max_characters ++ " characters.")
  else if char_count > max_characters then
    .error ("Too long. Should be " ++ toString min_characters ++ " to "
      ++ toString max_characters ++ " characters.")
  else
    .ok ()

/-- Model of `validator::ValidationError` as used by `Password::parse`:
a code (`"Invalid password"`) plus the message from `validate_password`. -/
structure PwValidationError where
  code : String
  message : String
deriving DecidableEq, Repr

/-- Model of `Password::parse` in `domain/password.rs`. -/
def Password.parse (s : String) : Except PwValidationError Password :=
  match validate_password s with
  | .ok () => .ok ⟨s⟩
  | .error message => .error ⟨"Invalid password", message⟩

/-! ### Association-list embedding of `HashMap`/`HashSet` store state

The Rust stores use `std::collections::HashMap`/`HashSet`.  They are embedded
as association lists with the usual map semantics: `insert` replaces any
existing binding for the key, `lookup` finds the binding, `remove` deletes it.
-/


/-- Model of `HashMap::get`: first binding for the key. -/
def alLookup [DecidableEq α] (l : List (α × β)) (k : α) : Option β :=
  (l.find? (fun p => decide (p.1 = k))).map (·.2)

/-- Model of `HashMap::insert`: replace any existing binding for the key. -/
def alInsert [DecidableEq α] (l : List (α × β)) (k : α) (v : β) : List (α × β) :=
  (k, v) :: l.filter (fun p => decide (p.1 ≠ k))

/-- Model of `HashMap::remove`: drop any binding for the key. -/
def alRemove [DecidableEq α] (l : List (α × β)) (k : α) : List (α × β) :=
  l.filter (fun p => decide (p.1 ≠ k))

/-! ### Challenge Store (`services/data_stores/hashmap_two_fa_code_store.rs`) -/


/-- State of `HashmapTwoFACodeStore`: `codes: HashMap<Email, (LoginAttemptId, TwoFACode)>`. -/
abbrev TwoFAStore := List (Email × (LoginAttemptId × TwoFACode))

/-- Model of `HashmapTwoFACodeStore::add_code`: `self.codes.insert(email, (login_attempt_id, code)); Ok(())`. -/
def add_code (st : TwoFAStore) (email : Email) (login_attempt_id : LoginAttemptId)
    (code : TwoFACode) : TwoFAStore × Except TwoFACodeStoreError Unit :=
  (alInsert st email (login_attempt_id, code), .ok ())

/-- Model of `HashmapTwoFACodeStore::remove_code`: `self.codes.remove(email); Ok(())`. -/
def remove_code (st : TwoFAStore) (email : Email) :
    TwoFAStore × Except TwoFACodeStoreError Unit :=
  (alRemove st email, .ok ())

/-- Model of `HashmapTwoFACodeStore::get_code`: clone the stored pair or
`Err(LoginAttemptIdNotFound)`. -/
def get_code (st : TwoFAStore) (email : Email) :
    Except TwoFACodeStoreError (LoginAttemptId × TwoFACode) :=
  match alLookup st email with
  | some (id, code) => .ok (id, code)
  | none => .error .loginAttemptIdNotFound

/-! ### Revocation Store (`services/data_stores/hashset_banned_token_store.rs`) -/


/-- State of `HashsetBannedTokenStore`: `banned_tokens: HashSet<String>`. -/
abbrev BannedTokenStore := List String

/-- Model of `HashsetBannedTokenStore::add_token`:
`self.banned_tokens.insert(token.expose_secret().to_owned()); Ok(())`. -/
def add_token (st : BannedTokenStore) (token : String) :
    BannedTokenStore × Except Unit Unit :=
  (if token ∈ st then st else token :: st, .ok ())

/-- Model of `HashsetBannedTokenStore::check_token`: `Err(BannedToken)` when the
set contains the token, `Ok(())` otherwise. -/
def check_token (st : BannedTokenStore) (token : String) :
    Except BannedTokenStoreError Unit :=
  if token ∈ st then .error .bannedToken else .ok ()

/-! ### Session validation (`utils/auth.rs`) -/


/-- The error kinds of `jsonwebtoken::errors::ErrorKind` that this embedding
distinguishes.  `decode` can fail with any of them; the body of
`validate_token` itself only ever constructs `InvalidToken`. -/
inductive JwtErrorKind where
  | invalidToken
  | invalidSignature
  | expiredSignature
deriving DecidableEq, Repr

/-- Model of `validate_token` in `utils/auth.rs`.  The JWT decoding step
(signature + expiry verification against `JWT_SECRET`) is an external
cryptographic operation, so it is a parameter `decode`.  The Rust code maps
`BannedTokenStoreError::BannedToken` — and any other store error — to a
`jsonwebtoken` error of kind `InvalidToken` before ever calling `decode`; a
decode failure is propagated (its `eyre` context wrapper is dropped, the
`jsonwebtoken` kind is kept).  There is no `RevokedToken` error anywhere in
the source. -/
def validate_token (decode : String → Except JwtErrorKind Claims)
    (banned_token_store : BannedTokenStore) (token : String) :
    Except JwtErrorKind Claims :=
  match check_token banned_token_store token with
  | .error _ => .error .invalidToken
  | .ok () => decode token

/-! ### Logout route (`routes/logout.rs`) -/


/-- Model of the `logout` handler: the cookie jar is reduced to the optional
JWT cookie value; `None` → `MissingToken`; a failed `validate_token` →
`InvalidToken`; otherwise `add_token` (which cannot fail in the hashset
implementation) and success. -/
def logout (decode : String → Except JwtErrorKind Claims)
    (banned_token_store : BannedTokenStore) (cookie : Option String) :
    BannedTokenStore × Except AuthAPIError Unit :=
  match cookie with
  | none => (banned_token_store, .error .missingToken)
  | some token =>
    match validate_token decode banned_token_store token with
    | .error _ => (banned_token_store, .error .invalidToken)
    | .ok _ =>
      let (st', r) := add_token banned_token_store token
      match r with
      | .ok () => (st', .ok ())
      | .error _ => (st', .error .unexpectedError)

/-! ### Verify-2FA route (`routes/verify_2fa.rs`) -/


/-- Observable effect order inside the `verify_2fa` handler, recorded so the
"removal happens after token issuance" sequencing can be stated. -/
inductive V2FAEvent where
  | issuedToken
  | removedCode
deriving DecidableEq, Repr

/-- Model of the `verify_2fa` handler after its three parse steps (lines
36–69 of `routes/verify_2fa.rs`), which is the part the claims are about:
`get_code` failure → `IncorrectCredentials`; mismatch of either field →
`IncorrectCredentials`; then `generate_auth_cookie` (an effectful token mint,
parameter `genCookie`; failure → `UnexpectedError`); then `remove_code`; on
success the cookie is appended to the jar and 200 is returned.  The event
trace records the source-ordered effects. -/
def verify_2fa (genCookie : Email → Except String String) (st : TwoFAStore)
    (jar : List String) (email : Email) (login_attempt_id : LoginAttemptId)
    (two_fa_code : TwoFACode) :
    TwoFAStore × List String × List V2FAEvent × Except AuthAPIError Nat :=
  match get_code st email with
  | .error _ => (st, jar, [], .error .incorrectCredentials)
  | .ok (expected_login_attempt_id, expected_two_fa_code) =>
    if login_attempt_id ≠ expected_login_attempt_id
        ∨ two_fa_code ≠ expected_two_fa_code then
      (st, jar, [], .error .incorrectCredentials)
    else
      match genCookie email with
      | .error _ => (st, jar, [], .error .unexpectedError)
      | .ok auth_cookie =>
        let (st', r) := remove_code st email
        match r with
        | .error _ => (st, jar, [.issuedToken], .error .unexpectedError)
        | .ok () =>
          (st', jar ++ [auth_cookie], [.issuedToken, .removedCode], .ok 200)

/-- Concrete values for witnesses. -/
def emailEx : Email := ⟨"foo@bar.com"⟩

def idEx1 : LoginAttemptId := ⟨"b65b6b5a-cae7-436b-8196-16abcfb59e47"⟩

def idEx2 : LoginAttemptId := ⟨"3a6fe309-45a9-49a6-ad44-4a5411760ae3"⟩

def codeEx1 : TwoFACode := ⟨"123456"⟩

def codeEx2 : TwoFACode := ⟨"654321"⟩

def genCookieEx : Email → Except String String := fun _ => .ok "jwt.cookie"

def twoFAStoreEx : TwoFAStore := [(emailEx, (idEx1, codeEx1))]

/-! ### Claims about session validation and logout -/


/-- A decode function modelling a token whose signature and expiry are both
individually valid. -/
def decodeOkEx : String → Except JwtErrorKind Claims :=
  fun _ => .ok ⟨"foo@bar.com", 600⟩

/-- A decode function modelling a token that fails the signature check. -/
def decodeBadSigEx : String → Except JwtErrorKind Claims :=
  fun _ => .error .invalidSignature

/-! ### Login orchestration (`routes/auth/login.rs`)

The user store consulted by `login` is the in-memory implementation
(`services/data_stores/hashmap_user_store.rs`).  That file stores a `User`
whose credential field is a plain `Password` compared by equality
(`password.eq(&user.password)`), predating the hash-carrying `User` of
`domain/user.rs`; it is embedded as written. -/


/-- The user record manipulated by `hashmap_user_store.rs`
(email, plain password, 2FA flag, id). -/
structure HmUser where
  email : Email
  password : Password
  requires_2fa : Bool
  id : UserId
deriving DecidableEq, Repr

/-- State of `HashmapUserStore`: `users: HashMap<Email, User>`. -/
abbrev HashmapUserStore := List (Email × HmUser)

/-- Model of `HashmapUserStore::add_user`. -/
def add_user (st : HashmapUserStore) (user : HmUser) :
    HashmapUserStore × Except UserStoreError Unit :=
  if (alLookup st user.email).isSome then
    (st, .error .userAlreadyExists)
  else
    (alInsert st user.email user, .ok ())

/-- Model of `HashmapUserStore::get_user`. -/
def get_user (st : HashmapUserStore) (email : Email) :
    Except UserStoreError HmUser :=
  match alLookup st email with
  | some user => .ok user
  | none => .error .userNotFound

/-- Model of `HashmapUserStore::validate_user`: fetch the user (propagating
`UserNotFound`), then compare the plain passwords. -/
def validate_user (st : HashmapUserStore) (email : Email) (password : Password) :
    Except UserStoreError Unit :=
  match get_user st email with
  | .error e => .error e
  | .ok user => if password = user.password then .ok () else .error .invalidCredentials

/-- Model of `HashmapUserStore::delete_user`. -/
def delete_user (st : HashmapUserStore) (email : Email) :
    HashmapUserStore × Except UserStoreError Unit :=
  if (alLookup st email).isSome then
    (alRemove st email, .ok ())
  else
    (st, .error .userNotFound)

/-- Model of `TwoFactorAuthResponse { message, login_attempt_id }`. -/
structure TwoFactorAuthResponse where
  message : String
  login_attempt_id : String
deriving DecidableEq, Repr

/-- Model of `LoginResponse`. -/
inductive LoginResponse where
  | regularAuth
  | twoFactorAuth (r : TwoFactorAuthResponse)
deriving DecidableEq, Repr

/-- Model of `handle_2fa` in `routes/auth/login.rs`.  The fresh
`LoginAttemptId::default()` / `TwoFACode::default()` values are parameters
(they come from the process RNG), as is the message-delivery collaborator
`send` (called with the recipient, the subject `"LGR Bootcamp 2FA Code"`, and
the code as body).  `add_code` on the hashmap store always succeeds; a
delivery error becomes `UnexpectedError`; on success the response is 206 with
the unchanged jar and a body carrying only the message and the attempt id. -/
def handle_2fa (send : Email → String → String → Except String Unit)
    (login_attempt_id : LoginAttemptId) (two_fa_code : TwoFACode)
    (st : TwoFAStore) (jar : List String) (email : Email) :
    TwoFAStore × Except AuthAPIError (Nat × List String × LoginResponse) :=
  let (st', addResult) := add_code st email login_attempt_id two_fa_code
  match addResult with
  | .error _ => (st', .error .unexpectedError)
  | .ok () =>
    match send email "LGR Bootcamp 2FA Code" two_fa_code.raw with
    | .error _ => (st', .error .unexpectedError)
    | .ok () =>
      (st', .ok (206, jar,
        .twoFactorAuth ⟨"2FA required", login_attempt_id.raw⟩))

/-- Model of `handle_no_2fa` in `routes/auth/login.rs`:
`generate_auth_cookie(&email, &user_id)` (parameter `genCookie`); on success
the cookie is added to the jar and 200/`RegularAuth` returned. -/
def handle_no_2fa (genCookie : Email → UserId → Except String String)
    (jar : List String) (email : Email) (user_id : UserId) :
    Except AuthAPIError (Nat × List String × LoginResponse) :=
  match genCookie email user_id with
  | .error _ => .error .unexpectedError
  | .ok auth_cookie => .ok (200, jar ++ [auth_cookie], .regularAuth)

/-- Model of the `login` handler (post-parse, lines 26–46 of
`routes/auth/login.rs`): `validate_user` collapsing
`InvalidCredentials`/`UserNotFound` to `IncorrectCredentials` and anything
else to `UnexpectedError`; then `get_user` (any error → `UnexpectedError`);
then the 2FA branch on `user.requires_2fa`. -/
def login (ust : HashmapUserStore) (tfst : TwoFAStore)
    (send : Email → String → String → Except String Unit)
    (login_attempt_id : LoginAttemptId) (two_fa_code : TwoFACode)
    (genCookie : Email → UserId → Except String String)
    (jar : List String) (email : Email) (password : Password) :
    TwoFAStore × Except AuthAPIError (Nat × List String × LoginResponse) :=
  match validate_user ust email password with
  | .error e =>
    (tfst, .error (match e with
      | .invalidCredentials => .incorrectCredentials
      | .userNotFound => .incorrectCredentials
      | _ => .unexpectedError))
  | .ok () =>
    match get_user ust email with
    | .error _ => (tfst, .error .unexpectedError)
    | .ok user =>
      if user.requires_2fa then
        handle_2fa send login_attempt_id two_fa_code tfst jar user.email
      else
        (tfst, handle_no_2fa genCookie jar user.email user.id)

/-- Concrete user store values for the C3 witness: no account vs. an account
with a different password. -/
def passwordEx : Password := ⟨"P@55w0rd"⟩

def otherUserEx : HmUser :=
  ⟨emailEx, ⟨"P155w0rd"⟩, false, ⟨"5e90ca28-e1ad-4795-a190-089959c16e0b"⟩⟩

def userStoreWithOtherPasswordEx : HashmapUserStore := [(emailEx, otherUserEx)]

/-! ### Durable Credential Store (`services/data_stores/postgres_user_store.rs`)

The `users` table (unique constraint on email) is embedded as a list of rows;
argon2 hashing/verification (`domain/user_password_hash.rs`) is an external
cryptographic primitive, so it enters as parameters `hashFn`/`verify`.
Re-parsing of a fetched row's email and hash (which only fails on stored-data
corruption) is modelled as succeeding, since every row originates from a
validated `User`. -/


/-- A row of the `users` table as written by `PostgresUserStore::add_user`. -/
structure PgUserRow where
  id : UserId
  email : Email
  password_hash : UserPasswordHash
  requires_2fa : Bool
deriving DecidableEq, Repr

/-- Model of `PostgresUserStore::add_user`: the INSERT hits the unique email
constraint exactly when a row with that email exists → `UserAlreadyExists`. -/
def pg_add_user (st : List PgUserRow) (user : PgUserRow) :
    List PgUserRow × Except UserStoreError Unit :=
  if (st.find? (fun r => decide (r.email = user.email))).isSome then
    (st, .error .userAlreadyExists)
  else
    (st ++ [user], .ok ())

/-- Model of `PostgresUserStore::get_user`: `fetch_one` with `RowNotFound` →
`UserNotFound`. -/
def pg_get_user (st : List PgUserRow) (email : Email) :
    Except UserStoreError PgUserRow :=
  match st.find? (fun r => decide (r.email = email)) with
  | some row => .ok row
  | none => .error .userNotFound

/-- Model of `PostgresUserStore::validate_user`: fetch the user (propagating
`UserNotFound`), then `verify_password_hash`, any verify failure →
`InvalidCredentials`. -/
def pg_validate_user (verify : String → String → Bool) (st : List PgUserRow)
    (email : Email) (password : Password) : Except UserStoreError Unit :=
  match pg_get_user st email with
  | .error e => .error e
  | .ok row =>
    if verify row.password_hash.raw password.raw then .ok ()
    else .error .invalidCredentials

/-- Model of `PostgresUserStore::delete_user`: `rows_affected == 0` →
`UserNotFound`. -/
def pg_delete_user (st : List PgUserRow) (email : Email) :
    List PgUserRow × Except UserStoreError Unit :=
  if (st.find? (fun r => decide (r.email = email))).isSome then
    (st.filter (fun r => decide (r.email ≠ email)), .ok ())
  else
    (st, .error .userNotFound)

/-! ### Contract equivalence of the two Credential Store implementations -/


/-- One abstract identity record: the user set both implementations hold. -/
structure AbsUser where
  email : Email
  password : Password
  requires_2fa : Bool
  id : UserId
deriving DecidableEq, Repr

/-- A Credential Store operation. -/
inductive StoreOp where
  | add (email : Email) (password : Password) (requires_2fa : Bool) (id : UserId)
  | get (email : Email)
  | validate (email : Email) (password : Password)
  | delete (email : Email)
deriving DecidableEq, Repr

/-- The caller-visible result class of a Credential Store operation. -/
inductive OpClass where
  | ok
  | alreadyExists
  | notFound
  | invalidCredentials
  | unexpected
deriving DecidableEq, Repr

/-- Result class of an `Except UserStoreError` value. -/
def exceptClass : Except UserStoreError α → OpClass
  | .ok _ => .ok
  | .error .userAlreadyExists => .alreadyExists
  | .error .userNotFound => .notFound
  | .error .invalidCredentials => .invalidCredentials
  | .error .unexpectedError => .unexpected

/-- Result class of each operation on the in-memory store. -/
def hmExec (st : HashmapUserStore) : StoreOp → OpClass
  | .add email password requires_2fa id =>
    exceptClass (add_user st ⟨email, password, requires_2fa, id⟩).2
  | .get email => exceptClass (get_user st email)
  | .validate email password => exceptClass (validate_user st email password)
  | .delete email => exceptClass (delete_user st email).2

/-- Result class of each operation on the durable store (signup hashes the
password with `hashFn` before `add_user`). -/
def pgExec (hashFn : String → String) (verify : String → String → Bool)
    (st : List PgUserRow) : StoreOp → OpClass
  | .add email password requires_2fa id =>
    exceptClass (pg_add_user st ⟨id, email, ⟨hashFn password.raw⟩, requires_2fa⟩).2
  | .get email => exceptClass (pg_get_user st email)
  | .validate email password => exceptClass (pg_validate_user verify st email password)
  | .delete email => exceptClass (pg_delete_user st email).2

/-- The in-memory store holding an abstract user set. -/
def hmOf (us : List AbsUser) : HashmapUserStore :=
  us.map (fun u => (u.email, ⟨u.email, u.password, u.requires_2fa, u.id⟩))

/-- The durable store holding the same abstract user set (passwords at rest
replaced by their hashes). -/
def pgOf (hashFn : String → String) (us : List AbsUser) : List PgUserRow :=
  us.map (fun u => ⟨u.id, u.email, ⟨hashFn u.password.raw⟩, u.requires_2fa⟩)

/-! ### Fresh credential generation (`domain/two_fa_code.rs`,
`domain/login_attempt_id.rs`)

The process RNG enters as explicit parameters (the random `u32` draw, the
random UUID nibbles). -/


/-- Decimal rendering of a natural number, as Rust's `format!("{}", n)`
produces (most significant digit first). -/
def decimalDigits (n : Nat) : List Char :=
  if _h : n < 10 then [Nat.digitChar n]
  else decimalDigits (n / 10) ++ [Nat.digitChar (n % 10)]
termination_by n
decreasing_by
  exact Nat.div_lt_self (by omega) (by omega)

/-- Model of Rust's `format!("{:06}", n)`: the decimal rendering left-padded
with `'0'` to width 6. -/
def rustFormat06 (n : Nat) : String :=
  let ds := decimalDigits n
  ⟨List.replicate (6 - ds.length) '0' ++ ds⟩

/-- Modelled from the spec: `TWO_FA_CODE_REGEX` is referenced from
`utils::constants` by `domain/two_fa_code.rs` but its definition is missing
from the provided source; spec §4.1 requires a 2FA code to "match exactly six
ASCII digits". -/
def twoFACodeRegexMatches (s : String) : Bool :=
  s.length == 6 && s.data.all (fun c => c.isDigit)

/-- Model of `TwoFACode::parse`: accept exactly the regex matches. -/
def TwoFACode.parse (code : String) : Except String TwoFACode :=
  if twoFACodeRegexMatches code then .ok ⟨code⟩
  else .error "2FA code is not valid"

/-- Model of `TwoFACode::default`:
`rand::random::<u32>() % 1_000_000` formatted with `"{:06}"`; the random
draw is the parameter. -/
def TwoFACode.defaultFrom (r : Nat) : TwoFACode :=
  ⟨rustFormat06 (r % 1000000)⟩

/-- The sixteen lowercase hex digit characters. -/
def hexDigitList : List Char :=
  "0123456789abcdef".data

/-- Lowercase hex digit of `n % 16`. -/
def hexDigitChar (n : Nat) : Char :=
  hexDigitList.getD (n % 16) '0'

/-- Hex digit predicate as `uuid`'s parser accepts (either case). -/
def isHexDigitChar (c : Char) : Bool :=
  c.isDigit || ('a' ≤ c && c ≤ 'f') || ('A' ≤ c && c ≤ 'F')

/-- Renders `k` lowercase hex digits drawn from `n` (least significant first;
the digit order is irrelevant to parse acceptance). -/
def hexChars : Nat → Nat → List Char
  | 0, _ => []
  | k + 1, n => hexDigitChar n :: hexChars k (n / 16)

/-- The UUID v4 variant nibble: one of `8`, `9`, `a`, `b`. -/
def variantChar (v : Nat) : Char :=
  "89ab".data.getD (v % 4) '8'

/-- The randomness consumed by `Uuid::new_v4` (the six variable hex runs of
the 8-4-4-4-12 rendering; the version nibble is fixed to `4` and the variant
nibble to `8`–`b`). -/
structure UuidRand where
  a : Nat
  b : Nat
  c : Nat
  v : Nat
  e : Nat
  f : Nat

/-- Model of `uuid::Uuid::new_v4().to_string()`: the hyphenated lowercase
8-4-4-4-12 hex rendering with the v4 version and variant nibbles fixed. -/
def uuidV4String (r : UuidRand) : String :=
  ⟨hexChars 8 r.a ++ ('-' :: (hexChars 4 r.b ++ ('-' :: ('4' :: (hexChars 3 r.c ++
    ('-' :: (variantChar r.v :: (hexChars 3 r.e ++ ('-' :: hexChars 12 r.f)))))))))⟩

/-- Consume exactly `k` hex digit characters. -/
def dropHex : Nat → List Char → Option (List Char)
  | 0, cs => some cs
  | _ + 1, [] => none
  | k + 1, c :: cs => if isHexDigitChar c then dropHex k cs else none

/-- Model of the hyphenated branch of `uuid::Uuid::try_parse` (external
crate): 8-4-4-4-12 hex digit groups separated by `-`.  The crate also accepts
simple/braced/urn forms not needed here: every string `Uuid::new_v4()`
renders is hyphenated. -/
def isHyphenatedUuid (s : String) : Bool :=
  match dropHex 8 s.data with
  | some ('-' :: cs1) =>
    (match dropHex 4 cs1 with
    | some ('-' :: cs2) =>
      (match dropHex 4 cs2 with
      | some ('-' :: cs3) =>
        (match dropHex 4 cs3 with
        | some ('-' :: cs4) => dropHex 12 cs4 == some []
        | _ => false)
      | _ => false)
    | _ => false)
  | _ => false

/-- Model of `LoginAttemptId::parse`: `Uuid::try_parse` then re-serialize via
`parsed.to_string()` (lowercase hyphenated form). -/
def LoginAttemptId.parse (s : String) : Except String LoginAttemptId :=
  if isHyphenatedUuid s then .ok ⟨s.toLower⟩
  else .error "Invalid login attempt ID"

/-- Model of `LoginAttemptId::default`: `String::from(uuid::Uuid::new_v4())`. -/
def LoginAttemptId.defaultFrom (r : UuidRand) : LoginAttemptId :=
  ⟨uuidV4String r⟩

/-! ### Helper lemmas, claim theorems and witnesses -/

/-- C7: `Password::parse` succeeds exactly when the Unicode-scalar count is in
[8,128]; a shorter input yields a `ValidationError` whose message says "Too
short" and gives both bounds; a longer one says "Too long" with both bounds. -/
theorem C7_password_parse_bounds (s : String) :
    ((Password.parse s).isOk ↔ (8 ≤ s.length ∧ s.length ≤ 128))
    ∧ (s.length < 8 →
        Password.parse s =
          .error ⟨"Invalid password", "Too short. Should be 8 to 128 characters."⟩)
    ∧ (s.length > 128 →
        Password.parse s =
          .error ⟨"Invalid password", "Too long. Should be 8 to 128 characters."⟩) := by
  refine ⟨?_, ?_, ?_⟩
  · unfold Password.parse validate_password
    constructor
    · intro h
      by_cases h8 : s.length < 8
      · simp [h8, Except.isOk, Except.toBool] at h
      · by_cases h128 : s.length > 128
        · simp [h8, h128, Except.isOk, Except.toBool] at h
        · omega
    · intro ⟨h8, h128⟩
      have h8' : ¬ s.length < 8 := by omega
      have h128' : ¬ s.length > 128 := by omega
      simp [h8', h128', Except.isOk, Except.toBool]
  · intro h8
    unfold Password.parse validate_password
    simp only [h8, if_true]
    rfl
  · intro h128
    have h8 : ¬ s.length < 8 := by omega
    unfold Password.parse validate_password
    simp only [h8, if_false, h128, if_true]
    rfl

/-- Witness for C7 at the spec's concrete scenario: `"abcd123"` (7 chars) is
rejected as too short, and a 129-character password is rejected as too long. -/
theorem C7_password_parse_bounds_witness :
    Password.parse "abcd123" =
      .error ⟨"Invalid password", "Too short. Should be 8 to 128 characters."⟩
    ∧ Password.parse ⟨List.replicate 129 'a'⟩ =
      .error ⟨"Invalid password", "Too long. Should be 8 to 128 characters."⟩
    ∧ (Password.parse "password").isOk := by
  refine ⟨(C7_password_parse_bounds "abcd123").2.1 (by decide),
    (C7_password_parse_bounds ⟨List.replicate 129 'a'⟩).2.2 (by simp [String.length]),
    ((C7_password_parse_bounds "password").1).2 (by decide)⟩

theorem alLookup_filter_ne [DecidableEq α] (l : List (α × β)) (k : α) :
    alLookup (l.filter (fun p => decide (p.1 ≠ k))) k = none := by
  induction l with
  | nil => rfl
  | cons hd tl ih =>
    by_cases h : hd.1 = k
    · have hk : decide (hd.1 ≠ k) = false := by simp [h]
      simp only [List.filter_cons, hk, Bool.false_eq_true, if_false]
      exact ih
    · have hd' : decide (hd.1 ≠ k) = true := by simp [h]
      have hfind : decide (hd.1 = k) = false := by simp [h]
      simp only [List.filter_cons, hd', if_true, alLookup, List.find?_cons, hfind]
      exact ih

theorem alLookup_insert_self [DecidableEq α] (l : List (α × β)) (k : α) (v : β) :
    alLookup (alInsert l k v) k = some v := by
  simp [alInsert, alLookup, List.find?]

theorem alLookup_remove_self [DecidableEq α] (l : List (α × β)) (k : α) :
    alLookup (alRemove l k) k = none :=
  alLookup_filter_ne l k

/-! ### Claims about the Challenge Store and Verify2FA -/


/-- C1: presenting exactly the stored (email, attempt id, code) succeeds with a
session cookie, the challenge is removed (removal ordered after issuance in
the event trace), and the identical second call fails with
`IncorrectCredentials`. -/
theorem C1_verify_2fa_exactly_once (genCookie : Email → Except String String)
    (st : TwoFAStore) (jar : List String) (email : Email)
    (id : LoginAttemptId) (code : TwoFACode) (cookie : String)
    (hstored : alLookup st email = some (id, code))
    (hgen : genCookie email = .ok cookie) :
    verify_2fa genCookie st jar email id code =
      (alRemove st email, jar ++ [cookie], [.issuedToken, .removedCode], .ok 200)
    ∧ alLookup (alRemove st email) email = none
    ∧ (verify_2fa genCookie (alRemove st email) (jar ++ [cookie]) email id code).2.2.2 =
        .error .incorrectCredentials
    ∧ [V2FAEvent.issuedToken, V2FAEvent.removedCode].indexOf V2FAEvent.issuedToken <
        [V2FAEvent.issuedToken, V2FAEvent.removedCode].indexOf V2FAEvent.removedCode := by
  refine ⟨?_, alLookup_remove_self st email, ?_, by decide⟩
  · simp [verify_2fa, get_code, hstored, hgen, remove_code]
  · simp [verify_2fa, get_code, alLookup_remove_self]

/-- Witness for C1 at a concrete stored challenge. -/
theorem C1_verify_2fa_exactly_once_witness :
    verify_2fa genCookieEx twoFAStoreEx [] emailEx idEx1 codeEx1 =
      (alRemove twoFAStoreEx emailEx, [] ++ ["jwt.cookie"],
        [.issuedToken, .removedCode], .ok 200)
    ∧ alLookup (alRemove twoFAStoreEx emailEx) emailEx = none
    ∧ (verify_2fa genCookieEx (alRemove twoFAStoreEx emailEx) ([] ++ ["jwt.cookie"])
        emailEx idEx1 codeEx1).2.2.2 = .error .incorrectCredentials
    ∧ [V2FAEvent.issuedToken, V2FAEvent.removedCode].indexOf V2FAEvent.issuedToken <
        [V2FAEvent.issuedToken, V2FAEvent.removedCode].indexOf V2FAEvent.removedCode :=
  C1_verify_2fa_exactly_once genCookieEx twoFAStoreEx [] emailEx idEx1 codeEx1
    "jwt.cookie" (by rfl) (by rfl)

/-- C5 (amended only by the implicit freshness of attempt ids): a second
`add_code` for the same email strictly supersedes the first, `get_code`
returns exactly the second pair, and `verify_2fa` presenting the superseded
(distinct) attempt id fails with `IncorrectCredentials`. -/
theorem C5_put_last_write_wins (genCookie : Email → Except String String)
    (st : TwoFAStore) (jar : List String) (email : Email)
    (id1 id2 : LoginAttemptId) (code1 code2 : TwoFACode)
    (hne : id1 ≠ id2) :
    get_code (add_code (add_code st email id1 code1).1 email id2 code2).1 email =
      .ok (id2, code2)
    ∧ (verify_2fa genCookie (add_code (add_code st email id1 code1).1 email id2 code2).1
        jar email id1 code1).2.2.2 = .error .incorrectCredentials := by
  constructor
  · simp [add_code, get_code, alLookup_insert_self]
  · simp [verify_2fa, add_code, get_code, alLookup_insert_self, hne]

/-- Witness for C5 at two concrete challenges for one email. -/
theorem C5_put_last_write_wins_witness :
    get_code (add_code (add_code [] emailEx idEx1 codeEx1).1 emailEx idEx2 codeEx2).1
        emailEx = .ok (idEx2, codeEx2)
    ∧ (verify_2fa genCookieEx
        (add_code (add_code [] emailEx idEx1 codeEx1).1 emailEx idEx2 codeEx2).1
        [] emailEx idEx1 codeEx1).2.2.2 = .error .incorrectCredentials :=
  C5_put_last_write_wins genCookieEx [] [] emailEx idEx1 idEx2 codeEx1 codeEx2
    (by decide)

/-- C2 counterexample: a token present in the Revocation Store is rejected
with the `InvalidToken` error kind — the error the claim reserves for
non-revoked tokens failing signature/expiry — even though its signature and
expiry are individually valid; no `RevokedToken` error exists in the source
(`utils/auth.rs` maps `BannedTokenStoreError::BannedToken` to
`jsonwebtoken::errors::ErrorKind::InvalidToken`, and `AuthAPIError` has no
revocation variant). -/
theorem C2_no_revoked_token_error :
    ("revoked.jwt.token" ∈ (["revoked.jwt.token"] : BannedTokenStore))
    ∧ decodeOkEx "revoked.jwt.token" = .ok ⟨"foo@bar.com", 600⟩
    ∧ validate_token decodeOkEx ["revoked.jwt.token"] "revoked.jwt.token" =
        .error .invalidToken
    ∧ validate_token decodeBadSigEx [] "revoked.jwt.token" =
        .error .invalidSignature := by
  refine ⟨by decide, rfl, by rfl, by rfl⟩

/-- C2 amended: the revocation check does come first — a token present in the
Revocation Store fails validation with the `InvalidToken` error kind no
matter what the signature/expiry check would say (the decode step is never
consulted) — and only for a token absent from the store is the result that of
the signature + expiry check.  The error for a revoked token is the same
`InvalidToken` class as for signature/expiry failures, not a distinct
`RevokedToken`. -/
theorem C2_revocation_checked_first (decode : String → Except JwtErrorKind Claims)
    (st : BannedTokenStore) (token : String) :
    (token ∈ st → validate_token decode st token = .error .invalidToken)
    ∧ (token ∉ st → validate_token decode st token = decode token) := by
  constructor
  · intro h
    simp [validate_token, check_token, h]
  · intro h
    simp [validate_token, check_token, h]

/-- Witness for the amended C2 at a concrete revoked and non-revoked token. -/
theorem C2_revocation_checked_first_witness :
    validate_token decodeOkEx ["revoked.jwt.token"] "revoked.jwt.token" =
      .error .invalidToken
    ∧ validate_token decodeOkEx ["revoked.jwt.token"] "other.jwt.token" =
      decodeOkEx "other.jwt.token" :=
  ⟨(C2_revocation_checked_first decodeOkEx ["revoked.jwt.token"]
      "revoked.jwt.token").1 (by decide),
    (C2_revocation_checked_first decodeOkEx ["revoked.jwt.token"]
      "other.jwt.token").2 (by decide)⟩

/-- C4: logout is not idempotent.  After a successful logout the token is in
the Revocation Store, every later validation of that exact token fails with
the `InvalidToken` error kind, and a second logout with the same token fails
with `InvalidToken` instead of succeeding. -/
theorem C4_logout_not_idempotent (decode : String → Except JwtErrorKind Claims)
    (banned : BannedTokenStore) (token : String) (st' : BannedTokenStore)
    (h : logout decode banned (some token) = (st', .ok ())) :
    token ∈ st'
    ∧ validate_token decode st' token = .error .invalidToken
    ∧ logout decode st' (some token) = (st', .error .invalidToken) := by
  have hnotin : token ∉ banned := by
    intro hin
    simp [logout, validate_token, check_token, hin] at h
  have hdecode : ∃ c, decode token = .ok c := by
    cases hd : decode token with
    | error e => simp [logout, validate_token, check_token, hnotin, hd] at h
    | ok c => exact ⟨c, rfl⟩
  obtain ⟨c, hd⟩ := hdecode
  have hst' : st' = token :: banned := by
    simp [logout, validate_token, check_token, hnotin, hd, add_token] at h
    exact h.symm
  subst hst'
  refine ⟨List.mem_cons_self token banned, ?_, ?_⟩
  · simp [validate_token, check_token]
  · simp [logout, validate_token, check_token]

/-- Witness for C4 at a concrete token and empty revocation store. -/
theorem C4_logout_not_idempotent_witness :
    "any.jwt.token" ∈ (["any.jwt.token"] : BannedTokenStore)
    ∧ validate_token decodeOkEx ["any.jwt.token"] "any.jwt.token" =
        .error .invalidToken
    ∧ logout decodeOkEx ["any.jwt.token"] (some "any.jwt.token") =
        (["any.jwt.token"], .error .invalidToken) :=
  C4_logout_not_idempotent decodeOkEx [] "any.jwt.token" ["any.jwt.token"] (by rfl)

/-! ### Claims about the login orchestration -/


/-- C3: `UserNotFound` (no such account) and `InvalidCredentials` (wrong
password) from the credential store produce identical caller-visible login
outcomes — both collapse to `IncorrectCredentials`, and the two runs are
indistinguishable to the caller. -/
theorem C3_login_collapses_not_found (ust1 ust2 : HashmapUserStore)
    (tfst : TwoFAStore) (send : Email → String → String → Except String Unit)
    (login_attempt_id : LoginAttemptId) (two_fa_code : TwoFACode)
    (genCookie : Email → UserId → Except String String)
    (jar : List String) (email : Email) (password : Password)
    (h1 : validate_user ust1 email password = .error .userNotFound)
    (h2 : validate_user ust2 email password = .error .invalidCredentials) :
    login ust1 tfst send login_attempt_id two_fa_code genCookie jar email password =
      (tfst, .error .incorrectCredentials)
    ∧ login ust2 tfst send login_attempt_id two_fa_code genCookie jar email password =
      (tfst, .error .incorrectCredentials)
    ∧ login ust1 tfst send login_attempt_id two_fa_code genCookie jar email password =
      login ust2 tfst send login_attempt_id two_fa_code genCookie jar email password := by
  refine ⟨?_, ?_, ?_⟩
  · simp [login, h1]
  · simp [login, h2]
  · simp [login, h1, h2]

/-- Witness for C3: an absent account and a present account with a
non-matching password yield the same `IncorrectCredentials` outcome. -/
theorem C3_login_collapses_not_found_witness :
    login [] [] (fun _ _ _ => .ok ()) idEx1 codeEx1 (fun _ _ => .ok "jwt.cookie")
      [] emailEx passwordEx = ([], .error .incorrectCredentials)
    ∧ login userStoreWithOtherPasswordEx [] (fun _ _ _ => .ok ()) idEx1 codeEx1
      (fun _ _ => .ok "jwt.cookie") [] emailEx passwordEx =
      ([], .error .incorrectCredentials)
    ∧ login [] [] (fun _ _ _ => .ok ()) idEx1 codeEx1 (fun _ _ => .ok "jwt.cookie")
      [] emailEx passwordEx =
      login userStoreWithOtherPasswordEx [] (fun _ _ _ => .ok ()) idEx1 codeEx1
      (fun _ _ => .ok "jwt.cookie") [] emailEx passwordEx :=
  C3_login_collapses_not_found [] userStoreWithOtherPasswordEx [] (fun _ _ _ => .ok ())
    idEx1 codeEx1 (fun _ _ => .ok "jwt.cookie") [] emailEx passwordEx (by rfl) (by rfl)

/-- C6: a successful 2FA login adds no auth cookie (the jar in the 206
response is the incoming jar, unchanged), and the response body carries only
the message `"2FA required"` and the fresh attempt id — in particular
neither field can be the 2FA code, whose six characters differ in length from
both the 36-character UUID and the fixed message. -/
theorem C6_2fa_login_returns_only_attempt_id
    (send : Email → String → String → Except String Unit)
    (login_attempt_id : LoginAttemptId) (two_fa_code : TwoFACode)
    (st : TwoFAStore) (jar : List String) (email : Email)
    (hsend : send email "LGR Bootcamp 2FA Code" two_fa_code.raw = .ok ())
    (hcode : two_fa_code.raw.length = 6)
    (hid : login_attempt_id.raw.length = 36) :
    handle_2fa send login_attempt_id two_fa_code st jar email =
      ((add_code st email login_attempt_id two_fa_code).1,
        .ok (206, jar, .twoFactorAuth ⟨"2FA required", login_attempt_id.raw⟩))
    ∧ login_attempt_id.raw ≠ two_fa_code.raw
    ∧ "2FA required" ≠ two_fa_code.raw := by
  refine ⟨?_, ?_, ?_⟩
  · simp [handle_2fa, add_code, hsend]
  · intro h
    rw [h] at hid
    omega
  · intro h
    rw [← h] at hcode
    simp [String.length] at hcode

/-- Witness for C6 with a concrete code, attempt id and delivery success. -/
theorem C6_2fa_login_returns_only_attempt_id_witness :
    handle_2fa (fun _ _ _ => .ok ()) idEx1 codeEx1 [] [] emailEx =
      ((add_code [] emailEx idEx1 codeEx1).1,
        .ok (206, [], .twoFactorAuth ⟨"2FA required", idEx1.raw⟩))
    ∧ idEx1.raw ≠ codeEx1.raw
    ∧ "2FA required" ≠ codeEx1.raw :=
  C6_2fa_login_returns_only_attempt_id (fun _ _ _ => .ok ()) idEx1 codeEx1 [] []
    emailEx (by rfl) (by decide) (by decide)

/-- C8: when the Challenge Store `put` succeeds but the delivery collaborator
fails, the login aborts with `UnexpectedError` (the caller receives no attempt
id — the result carries no response payload), while the freshly stored
challenge remains in the Challenge Store. -/
theorem C8_delivery_failure_keeps_challenge
    (send : Email → String → String → Except String Unit)
    (login_attempt_id : LoginAttemptId) (two_fa_code : TwoFACode)
    (st : TwoFAStore) (jar : List String) (email : Email) (msg : String)
    (hsend : send email "LGR Bootcamp 2FA Code" two_fa_code.raw = .error msg) :
    handle_2fa send login_attempt_id two_fa_code st jar email =
      ((add_code st email login_attempt_id two_fa_code).1, .error .unexpectedError)
    ∧ alLookup (add_code st email login_attempt_id two_fa_code).1 email =
      some (login_attempt_id, two_fa_code) := by
  constructor
  · simp [handle_2fa, add_code, hsend]
  · simp [add_code, alLookup_insert_self]

/-- Witness for C8 with a failing delivery collaborator. -/
theorem C8_delivery_failure_keeps_challenge_witness :
    handle_2fa (fun _ _ _ => .error "delivery failed") idEx1 codeEx1 [] [] emailEx =
      ((add_code [] emailEx idEx1 codeEx1).1, .error .unexpectedError)
    ∧ alLookup (add_code [] emailEx idEx1 codeEx1).1 emailEx = some (idEx1, codeEx1) :=
  C8_delivery_failure_keeps_challenge (fun _ _ _ => .error "delivery failed")
    idEx1 codeEx1 [] [] emailEx "delivery failed" (by rfl)

theorem alLookup_hmOf (us : List AbsUser) (e : Email) :
    alLookup (hmOf us) e =
      (us.find? (fun u => decide (u.email = e))).map
        (fun u => (⟨u.email, u.password, u.requires_2fa, u.id⟩ : HmUser)) := by
  induction us with
  | nil => rfl
  | cons hd tl ih =>
    by_cases h : hd.email = e
    · simp [hmOf, alLookup, List.find?_cons, h]
    · simpa [hmOf, alLookup, List.find?_cons, h] using ih

theorem find_pgOf (hashFn : String → String) (us : List AbsUser) (e : Email) :
    (pgOf hashFn us).find? (fun r => decide (r.email = e)) =
      (us.find? (fun u => decide (u.email = e))).map
        (fun u => (⟨u.id, u.email, ⟨hashFn u.password.raw⟩, u.requires_2fa⟩ : PgUserRow)) := by
  induction us with
  | nil => rfl
  | cons hd tl ih =>
    by_cases h : hd.email = e
    · simp [pgOf, List.find?_cons, h]
    · simpa [pgOf, List.find?_cons, h] using ih

/-- C9: over the same abstract user set, the in-memory and durable Credential
Store implementations return the same result class for every operation —
duplicate add → `AlreadyExists`, get/validate/delete of an absent email →
`NotFound`, validate with a wrong password → `InvalidCredentials` — provided
password hashing is correct (`verify (hashFn p) q` succeeds exactly for
`q = p`, the contract of the Password Hashing Service in spec §4.2/§8). -/
theorem C9_user_store_contract_equivalence (hashFn : String → String)
    (verify : String → String → Bool)
    (hverify : ∀ p q : String, verify (hashFn p) q = decide (p = q))
    (us : List AbsUser) (op : StoreOp) :
    hmExec (hmOf us) op = pgExec hashFn verify (pgOf hashFn us) op := by
  cases op with
  | add email password requires_2fa id =>
    simp only [hmExec, pgExec, add_user, pg_add_user, alLookup_hmOf, find_pgOf]
    cases us.find? (fun u => decide (u.email = email)) <;> simp [exceptClass]
  | get email =>
    simp only [hmExec, pgExec, get_user, pg_get_user, alLookup_hmOf, find_pgOf]
    cases us.find? (fun u => decide (u.email = email)) <;> simp [exceptClass]
  | validate email password =>
    simp only [hmExec, pgExec, validate_user, pg_validate_user, get_user,
      pg_get_user, alLookup_hmOf, find_pgOf]
    cases hfind : us.find? (fun u => decide (u.email = email)) with
    | none => simp [exceptClass]
    | some u =>
      obtain ⟨praw⟩ := password
      obtain ⟨ue, up, uf, ui⟩ := u
      obtain ⟨upraw⟩ := up
      by_cases hp : praw = upraw
      · subst hp
        simp [hverify, exceptClass]
      · have hp2 : ¬ ({ raw := praw } : Password) = { raw := upraw } := by
          simp [hp]
        have hp3 : ¬ upraw = praw := fun h => hp h.symm
        simp [hp2, hp3, hverify, exceptClass]
  | delete email =>
    simp only [hmExec, pgExec, delete_user, pg_delete_user, alLookup_hmOf, find_pgOf]
    cases us.find? (fun u => decide (u.email = email)) <;> simp [exceptClass]

/-- Witness for C9 with the identity "hash", exact-match "verify", a
one-user set and a wrong-password validate. -/
theorem C9_user_store_contract_equivalence_witness :
    hmExec (hmOf [⟨emailEx, passwordEx, false, ⟨"5e90ca28-e1ad-4795-a190-089959c16e0b"⟩⟩])
        (.validate emailEx ⟨"P155w0rd"⟩) =
      pgExec id (fun h q => decide (h = q))
        (pgOf id [⟨emailEx, passwordEx, false, ⟨"5e90ca28-e1ad-4795-a190-089959c16e0b"⟩⟩])
        (.validate emailEx ⟨"P155w0rd"⟩) :=
  C9_user_store_contract_equivalence id (fun h q => decide (h = q))
    (fun _ _ => rfl)
    [⟨emailEx, passwordEx, false, ⟨"5e90ca28-e1ad-4795-a190-089959c16e0b"⟩⟩]
    (.validate emailEx ⟨"P155w0rd"⟩)

theorem decimalDigits_length_le (k : Nat) :
    ∀ n : Nat, n < 10 ^ k → (decimalDigits n).length ≤ max k 1 := by
  induction k with
  | zero =>
    intro n h
    interval_cases n
    simp [decimalDigits]
  | succ k ih =>
    intro n h
    rw [decimalDigits]
    by_cases h10 : n < 10
    · simp [h10]
    · cases k with
      | zero =>
        exfalso
        have h1 : (10:Nat) ^ 1 = 10 := by norm_num
        rw [h1] at h
        omega
      | succ k2 =>
        have hdiv : n / 10 < 10 ^ (k2 + 1) := by
          rw [Nat.div_lt_iff_lt_mul (by omega)]
          calc n < 10 ^ (k2 + 2) := h
          _ = 10 ^ (k2 + 1) * 10 := by ring
        have hih := ih (n / 10) hdiv
        have hmax1 : max (k2 + 1) 1 = k2 + 1 := by omega
        rw [hmax1] at hih
        have hmax2 : max (k2 + 1 + 1) 1 = k2 + 2 := by omega
        rw [hmax2]
        simp only [h10, dif_neg, not_false_iff, List.length_append,
          List.length_singleton]
        omega

theorem digitChar_isDigit (m : Nat) (h : m < 10) :
    (Nat.digitChar m).isDigit = true := by
  have key : ∀ i : Fin 10, (Nat.digitChar i.val).isDigit = true := by decide
  exact key ⟨m, h⟩

theorem decimalDigits_all_digit (n : Nat) :
    ∀ c ∈ decimalDigits n, c.isDigit = true := by
  induction n using Nat.strong_induction_on with
  | _ n ih =>
    rw [decimalDigits]
    by_cases h10 : n < 10
    · simp only [h10, dif_pos, List.mem_singleton]
      rintro c rfl
      exact digitChar_isDigit n h10
    · simp only [h10, dif_neg, not_false_iff, List.mem_append, List.mem_singleton]
      rintro c (hc | rfl)
      · exact ih (n / 10) (Nat.div_lt_self (by omega) (by omega)) c hc
      · exact digitChar_isDigit (n % 10) (Nat.mod_lt _ (by omega))

theorem rustFormat06_length (n : Nat) (h : n < 1000000) :
    (rustFormat06 n).length = 6 := by
  have hle : (decimalDigits n).length ≤ 6 := by
    have := decimalDigits_length_le 6 n (by omega)
    omega
  show (List.replicate (6 - (decimalDigits n).length) '0' ++ decimalDigits n).length = 6
  simp [List.length_append, List.length_replicate]
  omega

theorem rustFormat06_all_digit (n : Nat) :
    ∀ c ∈ (rustFormat06 n).data, c.isDigit = true := by
  show ∀ c ∈ List.replicate (6 - (decimalDigits n).length) '0' ++ decimalDigits n,
    c.isDigit = true
  intro c hc
  rcases List.mem_append.mp hc with h | h
  · rw [List.eq_of_mem_replicate h]
    decide
  · exact decimalDigits_all_digit n c h

theorem hexDigitChar_isHexDigit (n : Nat) :
    isHexDigitChar (hexDigitChar n) = true := by
  have key : ∀ i : Fin 16, isHexDigitChar (hexDigitList.getD i.val '0') = true := by
    decide
  have h : n % 16 < 16 := Nat.mod_lt _ (by omega)
  exact key ⟨n % 16, h⟩

theorem variantChar_isHexDigit (v : Nat) : isHexDigitChar (variantChar v) = true := by
  have key : ∀ i : Fin 4, isHexDigitChar ("89ab".data.getD i.val '8') = true := by
    decide
  have h : v % 4 < 4 := Nat.mod_lt _ (by omega)
  exact key ⟨v % 4, h⟩

theorem stringData_mk (l : List Char) : (String.mk l).data = l := rfl

theorem dropHex_hexChars (k : Nat) :
    ∀ (n : Nat) (rest : List Char), dropHex k (hexChars k n ++ rest) = some rest := by
  induction k with
  | zero => intro n rest; rfl
  | succ k ih =>
    intro n rest
    simp only [hexChars, List.cons_append, dropHex, hexDigitChar_isHexDigit, if_true]
    exact ih (n / 16) rest

theorem dropHex_hexChars_nil (k n : Nat) : dropHex k (hexChars k n) = some [] := by
  simpa using dropHex_hexChars k n []

theorem dropHex_cons (k : Nat) (c : Char) (cs : List Char)
    (h : isHexDigitChar c = true) : dropHex (k + 1) (c :: cs) = dropHex k cs := by
  simp [dropHex, h]

theorem isHyphenatedUuid_uuidV4 (r : UuidRand) :
    isHyphenatedUuid (uuidV4String r) = true := by
  unfold isHyphenatedUuid uuidV4String
  rw [stringData_mk]
  simp only [dropHex_hexChars, dropHex_cons, variantChar_isHexDigit,
    show isHexDigitChar '4' = true from rfl, dropHex_hexChars_nil,
    beq_self_eq_true]

/-- C10: every freshly generated credential passes its own validator.
`TwoFACode::default` always yields exactly six ASCII digits (zero-padded,
since the random value below 1,000,000 is formatted with `"{:06}"`) and
`TwoFACode::parse` accepts it; `LoginAttemptId::default` always yields a UUID
string that `LoginAttemptId::parse` accepts. -/
theorem C10_defaults_pass_own_validators (r : Nat) (u : UuidRand) :
    (TwoFACode.defaultFrom r).raw.length = 6
    ∧ ((TwoFACode.defaultFrom r).raw.data.all (fun c => c.isDigit)) = true
    ∧ (TwoFACode.parse (TwoFACode.defaultFrom r).raw).isOk = true
    ∧ (LoginAttemptId.parse (LoginAttemptId.defaultFrom u).raw).isOk = true := by
  have hlen : (TwoFACode.defaultFrom r).raw.length = 6 :=
    rustFormat06_length (r % 1000000) (Nat.mod_lt _ (by omega))
  have hdig : ((TwoFACode.defaultFrom r).raw.data.all (fun c => c.isDigit)) = true := by
    rw [List.all_eq_true]
    intro c hc
    exact rustFormat06_all_digit (r % 1000000) c hc
  have hmatch : twoFACodeRegexMatches (TwoFACode.defaultFrom r).raw = true := by
    unfold twoFACodeRegexMatches
    rw [hlen, hdig]
    rfl
  refine ⟨hlen, hdig, ?_, ?_⟩
  · unfold TwoFACode.parse
    rw [hmatch]
    rfl
  · unfold LoginAttemptId.parse
    rw [show isHyphenatedUuid (LoginAttemptId.defaultFrom u).raw = true from
      isHyphenatedUuid_uuidV4 u]
    rfl
